import Mathlib

/-!
Shallow embedding of the Naim device integration (`uc_intg_naim`), covering
the HTTP client (`client.py`) and the media-player status refresh
(`media_player.py`).

Modelling conventions:
* JSON objects whose values the code reads as strings are modelled as
  association lists `RawMap := List (String × String)`; `dict.get(k, d)`
  becomes `rawGet`, `k in d` / `dict.get(k)` becomes `rawLookup`.
* Python truthiness of an optional dict (`if not status:`) is `truthy`:
  `none` and the empty map are falsy.
* Python `int(s)` is `pyInt : String → Option Int`; `none` models a raised
  `ValueError`.  (Underscore digit separators are not modelled; no claim
  touches them.)
* A Python function that can raise is embedded with `Option`/`Except`
  (`none`/`.error` = an exception escaping); functions that cannot raise are
  plain total functions.
* HTTP traffic is modelled by an oracle `dev : Req → Option RawMap` giving
  the parsed response for each issued request (`none` = request failed,
  non-200, or raised — `_request` catches all of these and returns `None`).
  Each client operation also returns the list of requests it issued, so
  "no request is sent" is provable.
-/

/-- Is `pat` a prefix of `l`?  (Structural `Bool` version so that concrete
instances reduce in the kernel.) -/
def isPreB : List Char → List Char → Bool
  | [], _ => true
  | _ :: _, [] => false
  | p :: ps, c :: cs => p == c && isPreB ps cs

/-- Python `pat in s` on char lists: `pat` occurs somewhere in `l`. -/
def containsList (pat : List Char) : List Char → Bool
  | [] => pat.isEmpty
  | c :: cs => isPreB pat (c :: cs) || containsList pat cs

/-- Python substring test `pat in s`. -/
def containsSub (s pat : String) : Bool :=
  containsList pat.data s.data

/-- Python `s.startswith(pat)`. -/
def startsWithB (s pat : String) : Bool :=
  isPreB pat.data s.data

/-- Python `s.endswith(pat)`. -/
def endsWithB (s pat : String) : Bool :=
  isPreB pat.data.reverse s.data.reverse

/-- Whitespace recognized by Python `int()` / `str.strip()`. -/
def isSpaceChar (c : Char) : Bool :=
  c == ' ' || c == '\t' || c == '\n' || c == '\r' || c == '\x0b' || c == '\x0c'

/-- Python `s.strip()` (both-end whitespace strip). -/
def pyStrip (l : List Char) : List Char :=
  ((l.dropWhile isSpaceChar).reverse.dropWhile isSpaceChar).reverse

/-- ASCII lowering of one character (`str.lower` restricted to ASCII, which is
all the source compares). -/
def lowerChar (c : Char) : Char :=
  if 'A' ≤ c && c ≤ 'Z' then Char.ofNat (c.toNat + 32) else c

/-- ASCII raising of one character (`str.upper` restricted to ASCII). -/
def upperChar (c : Char) : Char :=
  if 'a' ≤ c && c ≤ 'z' then Char.ofNat (c.toNat - 32) else c

/-- Python `s.lower()` (ASCII). -/
def lowerStr (s : String) : String :=
  String.mk (s.data.map lowerChar)

/-- Python `s.upper()` (ASCII). -/
def upperStr (s : String) : String :=
  String.mk (s.data.map upperChar)

/-- Python `s.replace(" ", "")`: every space is removed. -/
def removeSpaces (s : String) : String :=
  String.mk (s.data.filter (fun c => c != ' '))

/-- Python `s.split("/")[-1]`: the suffix after the last `'/'` (the whole
string when no `'/'` occurs). -/
def lastSeg (s : String) : String :=
  String.mk ((s.data.reverse.takeWhile (fun c => c != '/')).reverse)

abbrev RawMap := List (String × String)

/-- First binding of key `k`, like Python `d.get(k)` (`dict` keys are unique,
so first = only). -/
def rawLookup (m : RawMap) (k : String) : Option String :=
  (m.find? (fun p => p.1 == k)).map (fun p => p.2)

/-- Python `d.get(k, dflt)`. -/
def rawGet (m : RawMap) (k dflt : String) : String :=
  (rawLookup m k).getD dflt

/-- Python truthiness of an optional dict: `None` and `{}` are falsy. -/
def truthy (m : Option RawMap) : Option RawMap :=
  match m with
  | none => none
  | some l => if l.isEmpty then none else some l

/-- Decimal digit run to a number; `none` on an empty run or a non-digit. -/
def digitsToNat (l : List Char) : Option Nat :=
  if l.isEmpty then none
  else l.foldlM (fun acc c => if c.isDigit then some (acc * 10 + (c.toNat - 48)) else none) 0

/-- Python `int(s)` on a string: optional surrounding whitespace, optional
sign, then decimal digits; `none` models the `ValueError` raised otherwise. -/
def pyInt (s : String) : Option Int :=
  match pyStrip s.data with
  | '-' :: rest => (digitsToNat rest).map (fun n => -(n : Int))
  | '+' :: rest => (digitsToNat rest).map (fun n => (n : Int))
  | l => (digitsToNat l).map (fun n => (n : Int))

/-- Python `int(d.get(k, 0))`: a missing key falls back to the integer `0`,
a present value is parsed (and may raise). -/
def pyIntD (v : Option String) : Option Int :=
  match v with
  | none => some 0
  | some s => pyInt s

/-- Result of a Python call that may raise: `raised` models an uncaught
exception escaping the method, `ok` a normal return. -/
inductive PyResult (α : Type)
  | raised
  | ok (val : α)
deriving DecidableEq, Repr

namespace NaimClient

/-- Transport-state code to play state: `_transport_state_to_play_state`,
a dict lookup with default `"unknown"`. -/
def transport_state_to_play_state (transport_state : String) : String :=
  rawGet [("0", "stopped"), ("1", "paused"), ("2", "playing"), ("3", "buffering")]
    transport_state "unknown"

/-- The record built by `_normalize_status` (string-valued raw fields kept as
in the source dict literal; `repeat` is a Lean keyword, stored as
`repeatOn`). -/
structure Normalized where
  state : String
  source : String
  source_ussi : String
  position : Int
  duration : Int
  title : String
  artist : String
  album : String
  artwork : String
  station : String
  live : Bool
  can_resume : Bool
  repeatOn : Bool
  shuffle : Bool
  bit_depth : String
  bit_rate : String
  sample_rate : String
  codec : String
  genre : String
deriving DecidableEq, Repr

/-- Result of `_normalize_status`: a falsy input yields the empty dict `{}`,
otherwise the normalized record. -/
inductive NormResult
  | empty
  | norm (n : Normalized)
deriving DecidableEq, Repr

/-- `_normalize_status`.  `none` models an exception escaping (the only
fallible step is `int(status.get("transportPosition", 0))`). -/
def normalize_status (status : RawMap) : Option NormResult :=
  if status.isEmpty then some NormResult.empty
  else
    let transport_state := rawGet status "transportState" "0"
    let play_state := transport_state_to_play_state transport_state
    let source_ussi := rawGet status "source" ""
    let source_id := if containsSub source_ussi "/" then lastSeg source_ussi else source_ussi
    match pyIntD (rawLookup status "transportPosition") with
    | none => none
    | some pos =>
      some (NormResult.norm
        { state := play_state
          source := source_id
          source_ussi := source_ussi
          position := pos
          duration := 0
          title := rawGet status "title" ""
          artist := rawGet status "artist" ""
          album := rawGet status "album" ""
          artwork := rawGet status "artwork" ""
          station := rawGet status "station" ""
          live := rawGet status "live" "0" == "1"
          can_resume := rawGet status "canResume" "0" == "1"
          repeatOn := rawGet status "repeat" "0" == "1"
          shuffle := rawGet status "shuffle" "0" == "1"
          bit_depth := rawGet status "bitDepth" ""
          bit_rate := rawGet status "bitRate" ""
          sample_rate := rawGet status "sampleRate" ""
          codec := rawGet status "codec" ""
          genre := rawGet status "genre" "" })

/-- One HTTP request issued by `_request` (the endpoint string carries the
query, exactly as the source formats it). -/
structure Req where
  method : String
  endpoint : String
deriving DecidableEq, Repr

/-- A device oracle: the parsed-JSON response the device gives to each
request, `none` when `_request` would return `None` (no 200, bad body,
socket error — all caught inside `_request`). -/
abbrev Dev := Req → Option RawMap

/-- `_request`, reduced to its observable effect: with no session it returns
`None` and issues nothing; with a session it issues exactly one request and
returns the oracle's answer.  The pair is (result, requests issued). -/
def request (sess : Bool) (dev : Dev) (method endpoint : String) :
    Option RawMap × List Req :=
  if sess then (dev ⟨method, endpoint⟩, [⟨method, endpoint⟩]) else (none, [])

/-- `get_status`: `GET /nowplaying`. -/
def get_status (sess : Bool) (dev : Dev) : Option RawMap × List Req :=
  request sess dev "GET" "/nowplaying"

/-- `get_volume`: `GET /levels/room`. -/
def get_volume (sess : Bool) (dev : Dev) : Option RawMap × List Req :=
  request sess dev "GET" "/levels/room"

/-- `get_power_state`: `GET /power`, then report whether `state` or `system`
is `"on"`; a falsy body yields `None`. -/
def get_power_state (sess : Bool) (dev : Dev) : Option Bool × List Req :=
  let r := request sess dev "GET" "/power"
  match truthy r.1 with
  | some power_info =>
      (some (lowerStr (rawGet power_info "state" "") == "on"
             || lowerStr (rawGet power_info "system" "") == "on"), r.2)
  | none => (none, r.2)

/-- `power_on`: `PUT /power?system=on`; success iff a response came back. -/
def power_on (sess : Bool) (dev : Dev) : Bool × List Req :=
  let r := request sess dev "PUT" "/power?system=on"
  (r.1.isSome, r.2)

/-- `power_off`: `PUT /power?system=lona`. -/
def power_off (sess : Bool) (dev : Dev) : Bool × List Req :=
  let r := request sess dev "PUT" "/power?system=lona"
  (r.1.isSome, r.2)

/-- `set_volume`: out-of-range volumes are rejected locally with no request;
otherwise one `PUT /levels/room?volume={v}`. -/
def set_volume (sess : Bool) (dev : Dev) (volume : Int) : Bool × List Req :=
  if 0 ≤ volume ∧ volume ≤ 100 then
    let r := request sess dev "PUT" ("/levels/room?volume=" ++ toString volume)
    (r.1.isSome, r.2)
  else (false, [])

/-- `volume_up`: fetch `/levels/room`; when the body is truthy and has a
`volume` key, `int()` it (`.error` models the `ValueError` escaping), add the
step capped at 100, and delegate to `set_volume`. -/
def volume_up (sess : Bool) (dev : Dev) (step : Int) :
    PyResult (Bool × List Req) :=
  let g := get_volume sess dev
  match truthy g.1 with
  | some volume_info =>
      match rawLookup volume_info "volume" with
      | some raw =>
          match pyInt raw with
          | none => PyResult.raised
          | some current_volume =>
              let new_volume := min 100 (current_volume + step)
              let s := set_volume sess dev new_volume
              PyResult.ok (s.1, g.2 ++ s.2)
      | none => PyResult.ok (false, g.2)
  | none => PyResult.ok (false, g.2)

/-- `volume_down`: as `volume_up` with the step subtracted, floored at 0. -/
def volume_down (sess : Bool) (dev : Dev) (step : Int) :
    PyResult (Bool × List Req) :=
  let g := get_volume sess dev
  match truthy g.1 with
  | some volume_info =>
      match rawLookup volume_info "volume" with
      | some raw =>
          match pyInt raw with
          | none => PyResult.raised
          | some current_volume =>
              let new_volume := max 0 (current_volume - step)
              let s := set_volume sess dev new_volume
              PyResult.ok (s.1, g.2 ++ s.2)
      | none => PyResult.ok (false, g.2)
  | none => PyResult.ok (false, g.2)

/-- `mute`: `PUT /levels/room?mute=1`. -/
def mute (sess : Bool) (dev : Dev) : Bool × List Req :=
  let r := request sess dev "PUT" "/levels/room?mute=1"
  (r.1.isSome, r.2)

/-- `unmute`: `PUT /levels/room?mute=0`. -/
def unmute (sess : Bool) (dev : Dev) : Bool × List Req :=
  let r := request sess dev "PUT" "/levels/room?mute=0"
  (r.1.isSome, r.2)

/-- The match test `set_source` applies to each cached input entry. -/
def matchesSource (source : String) (input_info : RawMap) : Bool :=
  let ussi := rawGet input_info "ussi" ""
  ussi == "inputs/" ++ source
  || endsWithB ussi ("/" ++ source)
  || removeSpaces (lowerStr (rawGet input_info "name" "")) == lowerStr source

/-- `set_source`: scan the cached inputs for the first match; a selectable
match issues `GET /inputs/{source}?cmd=select`, a non-selectable match fails
with no request, and no match at all issues the select command anyway. -/
def set_source (sess : Bool) (dev : Dev) (available_inputs : List RawMap)
    (source : String) : Bool × List Req :=
  match available_inputs.find? (matchesSource source) with
  | some input_info =>
      if rawLookup input_info "selectable" == some "1" then
        let r := request sess dev "GET" ("/inputs/" ++ source ++ "?cmd=select")
        (r.1.isSome, r.2)
      else (false, [])
  | none =>
      let r := request sess dev "GET" ("/inputs/" ++ source ++ "?cmd=select")
      (r.1.isSome, r.2)

/-- `play`: `GET /nowplaying?cmd=play`. -/
def play (sess : Bool) (dev : Dev) : Bool × List Req :=
  let r := request sess dev "GET" "/nowplaying?cmd=play"
  (r.1.isSome, r.2)

/-- `pause`: `GET /nowplaying?cmd=pause`. -/
def pause (sess : Bool) (dev : Dev) : Bool × List Req :=
  let r := request sess dev "GET" "/nowplaying?cmd=pause"
  (r.1.isSome, r.2)

/-- `stop`: `GET /nowplaying?cmd=stop`. -/
def stop (sess : Bool) (dev : Dev) : Bool × List Req :=
  let r := request sess dev "GET" "/nowplaying?cmd=stop"
  (r.1.isSome, r.2)

/-- `next_track`: `GET /nowplaying?cmd=next`. -/
def next_track (sess : Bool) (dev : Dev) : Bool × List Req :=
  let r := request sess dev "GET" "/nowplaying?cmd=next"
  (r.1.isSome, r.2)

/-- `previous_track`: `GET /nowplaying?cmd=prev`. -/
def previous_track (sess : Bool) (dev : Dev) : Bool × List Req :=
  let r := request sess dev "GET" "/nowplaying?cmd=prev"
  (r.1.isSome, r.2)

/-- `seek`: unsupported by the wire protocol, always fails with no request. -/
def seek (sess : Bool) (dev : Dev) (position : Int) : Bool × List Req :=
  (false, [])

/-- `set_repeat`: map the mode (upper-cased) through {OFF↦0, ONE↦1, ALL↦2}
with default "0", then `PUT /nowplaying?repeat={value}`. -/
def set_repeat (sess : Bool) (dev : Dev) (mode : String) : Bool × List Req :=
  let repeat_value := rawGet [("OFF", "0"), ("ONE", "1"), ("ALL", "2")] (upperStr mode) "0"
  let r := request sess dev "PUT" ("/nowplaying?repeat=" ++ repeat_value)
  (r.1.isSome, r.2)

/-- `set_shuffle`: `PUT /nowplaying?shuffle={0|1}`. -/
def set_shuffle (sess : Bool) (dev : Dev) (enabled : Bool) : Bool × List Req :=
  let r := request sess dev "PUT" ("/nowplaying?shuffle=" ++ (if enabled then "1" else "0"))
  (r.1.isSome, r.2)

/-- `set_balance`: unsupported, always fails with no request. -/
def set_balance (sess : Bool) (dev : Dev) (balance : Int) : Bool × List Req :=
  (false, [])

/-- `base_url` as built in `__init__`: `http://{host}:{port}`. -/
def base_url (host : String) (port : Nat) : String :=
  "http://" ++ host ++ ":" ++ toString port

/-- The `scheme://netloc` part of an absolute http URL (everything up to the
first `/` after `http://`), as `urllib.parse.urlsplit` extracts it. -/
def schemeNetloc (u : String) : String :=
  if startsWithB u "http://" then
    String.mk (('h' :: 't' :: 't' :: 'p' :: ':' :: '/' :: '/' :: []) ++
      ((u.data.drop 7).takeWhile (fun c => c != '/')))
  else u

/-- `urllib.parse.urljoin(base, ref)` for the references this client builds:
every endpoint starts with `/`, and RFC 3986 then replaces the base's whole
path with the reference — the base's own path (e.g. `/naim`) is discarded.
A reference without a leading `/` (never produced here) is merged onto the
base path up to its last `/`. -/
def urljoin (base ref : String) : String :=
  if startsWithB ref "/" then
    schemeNetloc base ++ ref
  else
    let basePath := (base.data.drop (schemeNetloc base).data.length)
    let dir := (basePath.reverse.dropWhile (fun c => c != '/')).reverse
    schemeNetloc base ++ String.mk dir ++ (if dir.isEmpty then "/" else "") ++ ref

/-- The URL `_request` contacts for a given `api_base` and endpoint. -/
def request_url (api_base endpoint : String) : String :=
  urljoin api_base endpoint

/-- How `_request` classifies a non-JSON 200 body: a body mentioning both
"refresh" and "naim" (case-insensitively) comes back as
`{"raw_response": text, "status_code": 200}`, any other text body as
`{"response": text}`. -/
def textResponseMap (text : String) : RawMap :=
  if containsSub (lowerStr text) "refresh" && containsSub (lowerStr text) "naim" then
    [("raw_response", text), ("status_code", "200")]
  else [("response", text)]

/-- The alternate-mount marker test in `connect`: the root body contains
`"naim/index.fcgi"` or `"naim/"` (the first is subsumed by the second). -/
def altMarkerInText (response_text : String) : Bool :=
  containsSub response_text "naim/index.fcgi" || containsSub response_text "naim/"

/-- The `api_base` that `connect` leaves behind, given the parsed root
response and whether the follow-up re-validation of a known endpoint
succeeded: a detected marker switches to `{base}/naim`, reverting when the
re-validation fails. -/
def connect_api_base (baseU : String) (root_data : RawMap) (reval_ok : Bool) : String :=
  match rawLookup root_data "raw_response" with
  | some response_text =>
      if altMarkerInText response_text then
        (if reval_ok then baseU ++ "/naim" else baseU)
      else baseU
  | none => baseU

end NaimClient

namespace NaimMediaPlayer

/-- The device state values the media player assigns
(`ucapi.media_player.States`). -/
inductive PState
  | off
  | on
  | playing
  | paused
  | buffering
  | unavailable
deriving DecidableEq, Repr

/-- `ucapi.media_player.RepeatMode`. -/
inductive RMode
  | off
  | one
  | all
deriving DecidableEq, Repr

/-- The `_attr_*` fields of `NaimMediaPlayer` that `update_status` touches,
plus `_last_status`. -/
structure PlayerAttrs where
  state : PState
  volume : Int
  muted : Bool
  media_position : Int
  media_duration : Int
  media_title : String
  media_artist : String
  media_album : String
  media_image_url : String
  source : String
  repeatMode : RMode
  shuffle : Bool
  last_status : RawMap
deriving DecidableEq, Repr

/-- `update_status`, embedded over the three fetches it performs
(`get_power_state`, `get_status`, `get_volume` results).  Assignments happen
in source order; the `except` handler is modelled by the `Except` value: a
raised `int()` carries the attributes as already mutated, and the handler
then sets `state := unavailable` on top of them. -/
def update_status (a : PlayerAttrs) (connected : Bool)
    (power_state : Option Bool) (status : Option RawMap)
    (volume_info : Option RawMap) : PlayerAttrs :=
  if !connected then a
  else
    match power_state with
    | none => { a with state := PState.unavailable }
    | some false => { a with state := PState.off }
    | some true =>
      match truthy status with
      | none => { a with state := PState.on }
      | some st =>
        let a1 := { a with last_status := st }
        let transport_state := rawGet st "transportState" "0"
        let a2 := { a1 with state :=
          if transport_state == "2" then PState.playing
          else if transport_state == "1" then PState.paused
          else if transport_state == "0" then PState.on
          else if transport_state == "3" then PState.buffering
          else PState.on }
        let afterVolume : Except PlayerAttrs PlayerAttrs :=
          match truthy volume_info with
          | none => Except.ok a2
          | some vi =>
            match pyIntD (rawLookup vi "volume") with
            | none => Except.error a2
            | some v =>
                Except.ok { a2 with volume := v, muted := rawGet vi "mute" "0" == "1" }
        match afterVolume with
        | Except.error bad => { bad with state := PState.unavailable }
        | Except.ok a3 =>
          match pyIntD (rawLookup st "transportPosition") with
          | none => { a3 with state := PState.unavailable }
          | some pos =>
            let source_ussi := rawGet st "source" ""
            { a3 with
              media_position := Int.fdiv pos 1000
              media_duration := 0
              media_title := rawGet st "title" ""
              media_artist := rawGet st "artist" ""
              media_album := rawGet st "album" ""
              media_image_url := rawGet st "artwork" ""
              repeatMode := if rawGet st "repeat" "0" == "1" then RMode.one else RMode.off
              shuffle := rawGet st "shuffle" "0" == "1"
              source := if startsWithB source_ussi "inputs/" then lastSeg source_ussi
                        else source_ussi }

end NaimMediaPlayer

open NaimClient NaimMediaPlayer in
/-- C4: normalization maps transport-state code "0" to stopped, "1" to
paused, "2" to playing, "3" to buffering, and every other code to the
"unknown" sentinel (the function is total, so nothing can raise); the
normalizer's `state` field is exactly this mapping applied to the raw
`transportState` (default "0"). -/
theorem spec_c4_transport_state_table :
    transport_state_to_play_state "0" = "stopped" ∧
    transport_state_to_play_state "1" = "paused" ∧
    transport_state_to_play_state "2" = "playing" ∧
    transport_state_to_play_state "3" = "buffering" ∧
    (∀ code : String, code ≠ "0" → code ≠ "1" → code ≠ "2" → code ≠ "3" →
      transport_state_to_play_state code = "unknown") ∧
    (∀ (status : RawMap) (n : Normalized),
      normalize_status status = some (NormResult.norm n) →
      n.state = transport_state_to_play_state (rawGet status "transportState" "0")) := by
  refine ⟨by decide, by decide, by decide, by decide, ?_, ?_⟩
  · intro code h0 h1 h2 h3
    have e0 : ("0" == code) = false := beq_eq_false_iff_ne.mpr (fun h => h0 h.symm)
    have e1 : ("1" == code) = false := beq_eq_false_iff_ne.mpr (fun h => h1 h.symm)
    have e2 : ("2" == code) = false := beq_eq_false_iff_ne.mpr (fun h => h2 h.symm)
    have e3 : ("3" == code) = false := beq_eq_false_iff_ne.mpr (fun h => h3 h.symm)
    simp [transport_state_to_play_state, rawGet, rawLookup, List.find?, e0, e1, e2, e3]
  · intro status n h
    unfold normalize_status at h
    split at h
    · simp at h
    · split at h
      · simp at h
      · simp only [Option.some.injEq, NormResult.norm.injEq] at h
        subst h
        rfl

open NaimClient in
/-- C4 witness: code "7" is outside the table and yields "unknown", and on a
concrete raw map the normalizer's state field agrees with the table. -/
theorem spec_c4_witness :
    transport_state_to_play_state "7" = "unknown" ∧
    ∀ n : Normalized,
      normalize_status [("transportState", "2")] = some (NormResult.norm n) →
      n.state = transport_state_to_play_state "2" :=
  ⟨spec_c4_transport_state_table.2.2.2.2.1 "7" (by decide) (by decide) (by decide) (by decide),
   fun n h => spec_c4_transport_state_table.2.2.2.2.2 [("transportState", "2")] n h⟩

open NaimClient in
/-- C3 counterexample: the claim says `normalize` never raises and turns a
non-parseable `transportPosition` such as "abc" into the zero-value, but
`int(status.get("transportPosition", 0))` raises `ValueError` there —
the embedding returns `none` (= exception escaping), not a result. -/
theorem spec_c3_counterexample :
    normalize_status [("transportPosition", "abc")] = none := by decide

open NaimClient in
/-- C3 amended: the boolean fields are parsed defensively (every value other
than "1", including non-parseable strings, yields `false`), and `normalize`
returns a result whenever `transportPosition` is absent or parses as an
integer; but a present, non-parseable `transportPosition` string raises
`ValueError` out of `normalize` — the normalizer is not total. -/
theorem spec_c3_amended :
    (∀ status : RawMap, rawLookup status "transportPosition" = none →
      ∃ res, normalize_status status = some res) ∧
    (∀ (status : RawMap) (s : String) (v : Int),
      rawLookup status "transportPosition" = some s → pyInt s = some v →
      ∃ res, normalize_status status = some res) ∧
    (∀ (status : RawMap) (s : String),
      rawLookup status "transportPosition" = some s → pyInt s = none →
      normalize_status status = none) ∧
    (∀ (status : RawMap) (n : Normalized),
      normalize_status status = some (NormResult.norm n) →
      (rawGet status "live" "0" ≠ "1" → n.live = false) ∧
      (rawGet status "canResume" "0" ≠ "1" → n.can_resume = false) ∧
      (rawGet status "repeat" "0" ≠ "1" → n.repeatOn = false) ∧
      (rawGet status "shuffle" "0" ≠ "1" → n.shuffle = false)) := by
  refine ⟨?_, ?_, ?_, ?_⟩
  · intro status h
    unfold normalize_status
    split
    · exact ⟨NormResult.empty, rfl⟩
    · rw [h]
      exact ⟨_, rfl⟩
  · intro status s v hs hv
    unfold normalize_status
    split
    · exact ⟨NormResult.empty, rfl⟩
    · rw [hs]
      simp only [pyIntD, hv]
      exact ⟨_, rfl⟩
  · intro status s hs hv
    unfold normalize_status
    split
    · rename_i he
      rw [List.isEmpty_iff] at he
      subst he
      simp [rawLookup] at hs
    · rw [hs]
      simp only [pyIntD, hv]
  · intro status n h
    unfold normalize_status at h
    split at h
    · simp at h
    · split at h
      · simp at h
      · simp only [Option.some.injEq, NormResult.norm.injEq] at h
        subst h
        refine ⟨?_, ?_, ?_, ?_⟩ <;>
          · intro hne
            simp only [beq_iff_eq]
            simpa using hne

open NaimClient in
/-- C3 witness: a map with no `transportPosition` normalizes, one whose
`transportPosition` is "120" normalizes, one with "abc" raises, and on a map
whose boolean fields hold garbage all four booleans come out `false`. -/
theorem spec_c3_witness :
    (∃ res, normalize_status [("title", "x")] = some res) ∧
    (∃ res, normalize_status [("transportPosition", "120")] = some res) ∧
    normalize_status [("transportPosition", "abc")] = none ∧
    ∀ n : Normalized,
      normalize_status [("live", "abc"), ("shuffle", "yes")] = some (NormResult.norm n) →
      n.live = false ∧ n.shuffle = false :=
  ⟨spec_c3_amended.1 [("title", "x")] (by decide),
   spec_c3_amended.2.1 [("transportPosition", "120")] "120" 120 (by decide) (by decide),
   spec_c3_amended.2.2.1 [("transportPosition", "abc")] "abc" (by decide) (by decide),
   fun n h =>
     ⟨(spec_c3_amended.2.2.2 _ n h).1 (by decide),
      (spec_c3_amended.2.2.2 _ n h).2.2.2 (by decide)⟩⟩

open NaimClient in
/-- C9 counterexample: "foo/bar" is not of the form "inputs/<id>", yet
`_normalize_status` does not pass it through unchanged — it splits on the
last "/" (the source tests `"/" in source_ussi`, not the "inputs/" shape)
and emits "bar". -/
theorem spec_c9_counterexample :
    startsWithB "foo/bar" "inputs/" = false ∧
    normalize_status [("source", "foo/bar")] = some (NormResult.norm
      { state := "stopped", source := "bar", source_ussi := "foo/bar",
        position := 0, duration := 0, title := "", artist := "", album := "",
        artwork := "", station := "", live := false, can_resume := false,
        repeatOn := false, shuffle := false, bit_depth := "", bit_rate := "",
        sample_rate := "", codec := "", genre := "" }) := by decide

open NaimClient NaimMediaPlayer in
/-- C9 amended: `_normalize_status` splits every source string containing a
"/" (whatever its shape, so in particular "inputs/<id>" → "<id>") at the
last "/", and only strings without any "/" pass through unchanged; the
media player's `update_status`, by contrast, implements exactly the claimed
rule — strings starting with "inputs/" are split at the last "/", all other
strings pass through unchanged. -/
theorem spec_c9_amended :
    (∀ (status : RawMap) (n : Normalized),
      normalize_status status = some (NormResult.norm n) →
      n.source = (if containsSub (rawGet status "source" "") "/" = true then
          lastSeg (rawGet status "source" "")
        else rawGet status "source" "")) ∧
    (∀ (a : PlayerAttrs) (st : RawMap) (pos : Int),
      st ≠ [] →
      pyIntD (rawLookup st "transportPosition") = some pos →
      (update_status a true (some true) (some st) none).source =
        (if startsWithB (rawGet st "source" "") "inputs/" = true then
          lastSeg (rawGet st "source" "")
        else rawGet st "source" "")) := by
  constructor
  · intro status n h
    unfold normalize_status at h
    split at h
    · simp at h
    · split at h
      · simp at h
      · simp only [Option.some.injEq, NormResult.norm.injEq] at h
        subst h
        rfl
  · intro a st pos hne hpos
    unfold update_status
    simp only [Bool.not_true, truthy, List.isEmpty_iff]
    rw [if_neg (by simp), if_neg hne]
    simp only [hpos]

open NaimClient NaimMediaPlayer in
/-- C9 witness: the normalizer splits "inputs/spotify" to "spotify" (a "/"
is present), and the media player passes "airable/radio" through only when
it does not start with "inputs/" — here it starts with "inputs/" shape
check applied to "inputs/a/b" gives "b". -/
theorem spec_c9_witness :
    (∀ n : Normalized,
      normalize_status [("source", "inputs/spotify")] = some (NormResult.norm n) →
      n.source = "spotify") ∧
    (update_status
      { state := PState.on, volume := 0, muted := false, media_position := 0,
        media_duration := 0, media_title := "", media_artist := "",
        media_album := "", media_image_url := "", source := "",
        repeatMode := RMode.off, shuffle := false, last_status := [] }
      true (some true) (some [("source", "foo/bar")]) none).source = "foo/bar" :=
  ⟨fun n h => by
      have := spec_c9_amended.1 [("source", "inputs/spotify")] n h
      simpa using this,
   by
    have := spec_c9_amended.2
      { state := PState.on, volume := 0, muted := false, media_position := 0,
        media_duration := 0, media_title := "", media_artist := "",
        media_album := "", media_image_url := "", source := "",
        repeatMode := RMode.off, shuffle := false, last_status := [] }
      [("source", "foo/bar")] 0 (by decide) (by decide)
    simpa using this⟩

open NaimClient in
/-- C6: `set_volume` rejects v < 0 and v > 100 locally, returning failure
with no request issued; an in-range v issues exactly one
`PUT /levels/room?volume={v}`. -/
theorem spec_c6_set_volume :
    (∀ (sess : Bool) (dev : Dev) (v : Int), (v < 0 ∨ 100 < v) →
      set_volume sess dev v = (false, [])) ∧
    (∀ (dev : Dev) (v : Int), 0 ≤ v → v ≤ 100 →
      set_volume true dev v =
        ((dev ⟨"PUT", "/levels/room?volume=" ++ toString v⟩).isSome,
         [⟨"PUT", "/levels/room?volume=" ++ toString v⟩])) := by
  constructor
  · intro sess dev v hv
    unfold set_volume
    rw [if_neg (by omega)]
  · intro dev v h0 h100
    unfold set_volume
    rw [if_pos ⟨h0, h100⟩]
    rfl

open NaimClient in
/-- C6 witness: v = 150 is rejected with no request; v = 50 issues exactly
the one PUT carrying volume=50. -/
theorem spec_c6_witness :
    set_volume true (fun _ => some []) 150 = (false, []) ∧
    set_volume true (fun _ => some []) 50 =
      (true, [⟨"PUT", "/levels/room?volume=" ++ toString (50 : Int)⟩]) :=
  ⟨spec_c6_set_volume.1 true (fun _ => some []) 150 (Or.inr (by decide)),
   spec_c6_set_volume.2 (fun _ => some []) 50 (by decide) (by decide)⟩

open NaimClient in
/-- C7: `volume_up`/`volume_down` fetch the current volume, clamp
current ± step into [0, 100], and issue `set_volume` with the clamped
target: the requests issued are exactly the volume GET followed by one PUT
carrying the clamped target.  (Stated for a device-reported volume in
[0, 100] and a non-negative step, which covers every call site — the source
always passes step = 3.) -/
theorem spec_c7_volume_step_clamps :
    ∀ (dev : Dev) (step current : Int) (vi : RawMap) (raw : String),
      dev ⟨"GET", "/levels/room"⟩ = some vi → vi ≠ [] →
      rawLookup vi "volume" = some raw → pyInt raw = some current →
      0 ≤ current → current ≤ 100 → 0 ≤ step →
      volume_up true dev step = PyResult.ok
        ((dev ⟨"PUT", "/levels/room?volume=" ++
            toString (max 0 (min 100 (current + step)))⟩).isSome,
         [⟨"GET", "/levels/room"⟩,
          ⟨"PUT", "/levels/room?volume=" ++
            toString (max 0 (min 100 (current + step)))⟩]) ∧
      volume_down true dev step = PyResult.ok
        ((dev ⟨"PUT", "/levels/room?volume=" ++
            toString (max 0 (min 100 (current - step)))⟩).isSome,
         [⟨"GET", "/levels/room"⟩,
          ⟨"PUT", "/levels/room?volume=" ++
            toString (max 0 (min 100 (current - step)))⟩]) := by
  intro dev step current vi raw hdev hne hvol hint h0 h100 hstep
  have hup : (0 : Int) ⊔ 100 ⊓ (current + step) = 100 ⊓ (current + step) := by omega
  have hdn : (0 : Int) ⊔ 100 ⊓ (current - step) = 0 ⊔ (current - step) := by omega
  constructor
  · unfold volume_up get_volume request
    rw [if_pos rfl, hdev]
    simp only [truthy, List.isEmpty_iff]
    rw [if_neg hne]
    simp only [hvol, hint, max_def, min_def] at hup ⊢
    rw [hup]
    unfold set_volume request
    rw [if_pos (by omega), if_pos rfl]
    rfl
  · unfold volume_down get_volume request
    rw [if_pos rfl, hdev]
    simp only [truthy, List.isEmpty_iff]
    rw [if_neg hne]
    simp only [hvol, hint, max_def, min_def] at hdn ⊢
    rw [hdn]
    unfold set_volume request
    rw [if_pos (by omega), if_pos rfl]
    rfl

open NaimClient in
/-- C7 witness: from a reported volume of 98 with step 3, `volume_up`
requests target 100 (clamped, never 101), and `volume_down` requests 95. -/
theorem spec_c7_witness :
    volume_up true
      (fun r => if r = ⟨"GET", "/levels/room"⟩ then some [("volume", "98")] else some [])
      3 = PyResult.ok
        (true, [⟨"GET", "/levels/room"⟩, ⟨"PUT", "/levels/room?volume=" ++
          toString (max 0 (min 100 ((98 : Int) + 3)))⟩]) ∧
    volume_down true
      (fun r => if r = ⟨"GET", "/levels/room"⟩ then some [("volume", "98")] else some [])
      3 = PyResult.ok
        (true, [⟨"GET", "/levels/room"⟩, ⟨"PUT", "/levels/room?volume=" ++
          toString (max 0 (min 100 ((98 : Int) - 3)))⟩]) := by
  have h := spec_c7_volume_step_clamps
    (fun r => if r = ⟨"GET", "/levels/room"⟩ then some [("volume", "98")] else some [])
    3 98 [("volume", "98")] "98" (by decide) (by decide) (by decide) (by decide)
    (by decide) (by decide) (by decide)
  exact ⟨by rw [h.1]; decide, by rw [h.2]; decide⟩

open NaimClient in
/-- C8 counterexample: the cached input list holds a non-selectable
"inputs/spotify" entry followed by a selectable one; the list therefore
contains a matching entry marked selectable, yet `set_source` returns
failure and issues no select command, because the scan stops at the first
match. -/
theorem spec_c8_counterexample :
    matchesSource "spotify" [("ussi", "inputs/spotify"), ("selectable", "1")] = true ∧
    rawLookup [("ussi", "inputs/spotify"), ("selectable", "1")] "selectable" = some "1" ∧
    set_source true (fun _ => some [])
      [[("ussi", "inputs/spotify"), ("selectable", "0")],
       [("ussi", "inputs/spotify"), ("selectable", "1")]]
      "spotify" = (false, []) := by decide

open NaimClient in
/-- C8 amended: the decision follows the first matching entry of the cached
list: if that entry's `selectable` field is "1" the select command is
issued; if it is anything else `set_source` fails with no request (even
when a later entry also matches and is selectable); and with no matching
entry at all the select command is attempted anyway. -/
theorem spec_c8_amended :
    ∀ (dev : Dev) (inputs : List RawMap) (source : String),
      (∀ input_info, inputs.find? (matchesSource source) = some input_info →
        rawLookup input_info "selectable" = some "1" →
        set_source true dev inputs source =
          ((dev ⟨"GET", "/inputs/" ++ source ++ "?cmd=select"⟩).isSome,
           [⟨"GET", "/inputs/" ++ source ++ "?cmd=select"⟩])) ∧
      (∀ input_info, inputs.find? (matchesSource source) = some input_info →
        rawLookup input_info "selectable" ≠ some "1" →
        set_source true dev inputs source = (false, [])) ∧
      (inputs.find? (matchesSource source) = none →
        set_source true dev inputs source =
          ((dev ⟨"GET", "/inputs/" ++ source ++ "?cmd=select"⟩).isSome,
           [⟨"GET", "/inputs/" ++ source ++ "?cmd=select"⟩])) := by
  intro dev inputs source
  refine ⟨?_, ?_, ?_⟩
  · intro input_info hfind hsel
    unfold set_source
    rw [hfind]
    simp [hsel, request]
  · intro input_info hfind hsel
    unfold set_source
    rw [hfind]
    have hb : (rawLookup input_info "selectable" == some "1") = false :=
      beq_eq_false_iff_ne.mpr hsel
    simp [hb]
  · intro hfind
    unfold set_source
    rw [hfind]
    simp [request]

open NaimClient in
/-- C8 witness: a selectable first match issues the select command; a
non-selectable sole match fails with no request; an empty cache still
issues the command (best-effort fallback). -/
theorem spec_c8_witness :
    set_source true (fun _ => some []) [[("ussi", "inputs/spotify"), ("selectable", "1")]]
      "spotify" = (true, [⟨"GET", "/inputs/spotify?cmd=select"⟩]) ∧
    set_source true (fun _ => some []) [[("ussi", "inputs/spotify"), ("selectable", "0")]]
      "spotify" = (false, []) ∧
    set_source true (fun _ => some []) [] "spotify" =
      (true, [⟨"GET", "/inputs/spotify?cmd=select"⟩]) := by
  refine ⟨?_, ?_, ?_⟩
  · have h := (spec_c8_amended (fun _ => some [])
      [[("ussi", "inputs/spotify"), ("selectable", "1")]] "spotify").1
      [("ussi", "inputs/spotify"), ("selectable", "1")] (by decide) (by decide)
    rw [h]; decide
  · exact (spec_c8_amended (fun _ => some [])
      [[("ussi", "inputs/spotify"), ("selectable", "0")]] "spotify").2.1
      [("ussi", "inputs/spotify"), ("selectable", "0")] (by decide) (by decide)
  · have h := (spec_c8_amended (fun _ => some []) [] "spotify").2.2 (by decide)
    rw [h]; decide

open NaimClient in
/-- C5 counterexample: `volume_up` does not catch the `ValueError` raised by
`int(volume_info["volume"])`, so a device responding to the volume GET with
a non-numeric volume string makes the command method raise instead of
returning a success/failure value. -/
theorem spec_c5_counterexample :
    volume_up true (fun _ => some [("volume", "abc")]) 3 = PyResult.raised := by decide

open NaimClient in
/-- C5 amended: every command method except `volume_up`/`volume_down` is
total (embedded as a plain function into success/failure — `_request`
catches all transport errors); `volume_up` and `volume_down` propagate an
exception exactly when a session exists and the volume GET's body carries a
`volume` value that `int()` cannot parse, and return success/failure in
every other case. -/
theorem spec_c5_amended :
    (∀ (sess : Bool) (dev : Dev) (step : Int),
      volume_up sess dev step = PyResult.raised ↔
        (sess = true ∧ ∃ vi, dev ⟨"GET", "/levels/room"⟩ = some vi ∧ vi ≠ [] ∧
          ∃ raw, rawLookup vi "volume" = some raw ∧ pyInt raw = none)) ∧
    (∀ (sess : Bool) (dev : Dev) (step : Int),
      volume_down sess dev step = PyResult.raised ↔
        (sess = true ∧ ∃ vi, dev ⟨"GET", "/levels/room"⟩ = some vi ∧ vi ≠ [] ∧
          ∃ raw, rawLookup vi "volume" = some raw ∧ pyInt raw = none)) := by
  constructor <;>
  · intro sess dev step
    constructor
    · intro h
      cases sess with
      | false =>
        exfalso
        revert h
        simp only [volume_up, volume_down, get_volume, request]
        simp [truthy]
      | true =>
        refine ⟨rfl, ?_⟩
        revert h
        simp only [volume_up, volume_down, get_volume, request, if_pos]
        cases hdev : dev ⟨"GET", "/levels/room"⟩ with
        | none => simp [truthy]
        | some vi =>
          cases hvi : vi.isEmpty with
          | true => simp [truthy, hvi]
          | false =>
            simp only [truthy, hvi]
            cases hvol : rawLookup vi "volume" with
            | none => simp [hvol]
            | some raw =>
              cases hint : pyInt raw with
              | none =>
                intro _
                exact ⟨vi, rfl, by simpa using hvi, raw, hvol, hint⟩
              | some v => simp [hvol, hint]
    · rintro ⟨hs, vi, hdev, hne, raw, hvol, hint⟩
      subst hs
      simp only [volume_up, volume_down, get_volume, request, if_pos, hdev]
      simp only [truthy, List.isEmpty_iff]
      rw [if_neg hne]
      simp [hvol, hint]

open NaimClient in
/-- C5 witness: with a parseable volume the command returns a value, with a
non-parseable one it raises; both directions of the characterization
applied at concrete inputs. -/
theorem spec_c5_witness :
    volume_down true (fun _ => some [("volume", "xyz")]) 3 = PyResult.raised ∧
    volume_up false (fun _ => some [("volume", "xyz")]) 3 ≠ PyResult.raised :=
  ⟨(spec_c5_amended.2 true (fun _ => some [("volume", "xyz")]) 3).mpr
      ⟨rfl, [("volume", "xyz")], rfl, by decide, "xyz", by decide, by decide⟩,
   fun h => by
      have := (spec_c5_amended.1 false (fun _ => some [("volume", "xyz")]) 3).mp h
      exact absurd this.1 (by decide)⟩

open NaimClient in
/-- C10: with no HTTP session (before the first `connect()` or after
`disconnect()` set `self._session = None`), `_request` returns `None`
immediately, so every command method and every status/volume/power getter
returns failure (`False`/`None`) and issues no request at all. -/
theorem spec_c10_no_session :
    ∀ (dev : Dev) (inputs : List RawMap) (v step pos bal : Int)
      (mode src : String) (en : Bool),
      get_status false dev = (none, []) ∧
      get_volume false dev = (none, []) ∧
      get_power_state false dev = (none, []) ∧
      power_on false dev = (false, []) ∧
      power_off false dev = (false, []) ∧
      set_volume false dev v = (false, []) ∧
      volume_up false dev step = PyResult.ok (false, []) ∧
      volume_down false dev step = PyResult.ok (false, []) ∧
      NaimClient.mute false dev = (false, []) ∧
      unmute false dev = (false, []) ∧
      set_source false dev inputs src = (false, []) ∧
      play false dev = (false, []) ∧
      pause false dev = (false, []) ∧
      NaimClient.stop false dev = (false, []) ∧
      next_track false dev = (false, []) ∧
      previous_track false dev = (false, []) ∧
      seek false dev pos = (false, []) ∧
      set_repeat false dev mode = (false, []) ∧
      set_shuffle false dev en = (false, []) ∧
      set_balance false dev bal = (false, []) := by
  intro dev inputs v step pos bal mode src en
  refine ⟨rfl, rfl, rfl, rfl, rfl, ?_, rfl, rfl, rfl, rfl, ?_, rfl, rfl, rfl,
    rfl, rfl, rfl, rfl, rfl, rfl⟩
  · unfold set_volume request
    split <;> rfl
  · unfold set_source request
    split
    · split <;> rfl
    · rfl

open NaimMediaPlayer in
/-- C2 counterexample: a refresh that fails by raising (`transportPosition`
= "abc" makes `int()` raise after the volume block already ran) overwrites
canonical fields: volume 10 → 50 and muted false → true survive into the
post-refresh attributes even though the refresh failed and the state was
marked unavailable.  The same `_attr_state` field, not a distinct
connectivity record, carries both play state and availability. -/
theorem spec_c2_counterexample :
    NaimMediaPlayer.update_status
      { state := PState.on, volume := 10, muted := false, media_position := 7,
        media_duration := 0, media_title := "t", media_artist := "a",
        media_album := "b", media_image_url := "u", source := "radio",
        repeatMode := RMode.off, shuffle := false, last_status := [] }
      true (some true)
      (some [("transportState", "2"), ("transportPosition", "abc")])
      (some [("volume", "50"), ("mute", "1")]) =
    { state := PState.unavailable, volume := 50, muted := true,
      media_position := 7, media_duration := 0, media_title := "t",
      media_artist := "a", media_album := "b", media_image_url := "u",
      source := "radio", repeatMode := RMode.off, shuffle := false,
      last_status := [("transportState", "2"), ("transportPosition", "abc")] } := by
  decide

open NaimMediaPlayer in
/-- C2 amended: when the refresh fails because the power fetch returns no
data, every other attribute keeps its pre-refresh value and only the state
attribute transitions to unavailable; when the power fetch succeeds (on)
but the now-playing fetch returns no data (or an empty body), every other
attribute keeps its pre-refresh value and the state transitions to on, not
to a degraded marker.  A refresh that raises mid-update (see the
counterexample) may leave fields assigned before the raise — the cached raw
status, the transport-derived state, volume, muted — already overwritten. -/
theorem spec_c2_amended :
    ∀ (a : PlayerAttrs) (status vol : Option RawMap),
      NaimMediaPlayer.update_status a true none status vol =
        { a with state := PState.unavailable } ∧
      (truthy status = none →
        NaimMediaPlayer.update_status a true (some true) status vol =
          { a with state := PState.on }) := by
  intro a status vol
  constructor
  · rfl
  · intro h
    unfold NaimMediaPlayer.update_status
    rw [h]
    rfl

open NaimMediaPlayer in
/-- C2 witness: both failure shapes at a concrete attribute record — a `None`
power fetch flips only the state to unavailable, a `None` status fetch flips
only the state to on. -/
theorem spec_c2_witness :
    NaimMediaPlayer.update_status
      { state := PState.playing, volume := 42, muted := false,
        media_position := 9, media_duration := 0, media_title := "song",
        media_artist := "artist", media_album := "album",
        media_image_url := "url", source := "spotify",
        repeatMode := RMode.one, shuffle := true,
        last_status := [("transportState", "2")] }
      true none (some [("transportState", "1")]) none =
    { state := PState.unavailable, volume := 42, muted := false,
      media_position := 9, media_duration := 0, media_title := "song",
      media_artist := "artist", media_album := "album",
      media_image_url := "url", source := "spotify",
      repeatMode := RMode.one, shuffle := true,
      last_status := [("transportState", "2")] } ∧
    NaimMediaPlayer.update_status
      { state := PState.playing, volume := 42, muted := false,
        media_position := 9, media_duration := 0, media_title := "song",
        media_artist := "artist", media_album := "album",
        media_image_url := "url", source := "spotify",
        repeatMode := RMode.one, shuffle := true,
        last_status := [("transportState", "2")] }
      true (some true) none none =
    { state := PState.on, volume := 42, muted := false,
      media_position := 9, media_duration := 0, media_title := "song",
      media_artist := "artist", media_album := "album",
      media_image_url := "url", source := "spotify",
      repeatMode := RMode.one, shuffle := true,
      last_status := [("transportState", "2")] } :=
  ⟨(spec_c2_amended _ (some [("transportState", "1")]) none).1,
   (spec_c2_amended _ none none).2 rfl⟩

open NaimClient in
/-- C1: on a root body that carries the alternate-mount marker and a
successful re-validation, `connect` stores `api_base = {base}/naim` — but
`_request` builds its URL with `urljoin(api_base, endpoint)` and every
endpoint starts with "/", so RFC 3986 resolution discards the base's path
component: the issued URL is the UNPREFIXED `http://host:port/nowplaying`,
never `/naim/nowplaying`.  The stored prefix can never reach the wire,
contradicting both the spec and the code's own "Using API base" /
"Detected Naim API prefix" logic, whose fallback branch is dead weight
without it — a genuine code bug, evaluated here at the failing input. -/
theorem spec_c1_prefix_never_applied :
    connect_api_base "http://192.168.1.10:15081"
        (textResponseMap
          "<html><meta http-equiv=refresh content=0;URL=/naim/index.fcgi></html>")
        true = "http://192.168.1.10:15081/naim" ∧
    request_url "http://192.168.1.10:15081/naim" "/nowplaying" =
      "http://192.168.1.10:15081/nowplaying" ∧
    startsWithB (request_url "http://192.168.1.10:15081/naim" "/nowplaying")
      "http://192.168.1.10:15081/naim/" = false ∧
    connect_api_base "http://192.168.1.10:15081"
        (textResponseMap "<html>welcome</html>") true =
      "http://192.168.1.10:15081" ∧
    request_url "http://192.168.1.10:15081" "/nowplaying" =
      "http://192.168.1.10:15081/nowplaying" := by decide
